import Mathlib

/-!
Verification development for the LetsFinance transaction / reporting code.

The definitions below are a shallow embedding of the TypeScript source:
`types.ts` (data model and the `App` store handlers), the Dashboard component
(period filter, stats, account balances), the Reports component (period
filter, stats, accounting line items, yearly chart, top expenses) and the
TransactionList component (search/type filter, sort, pagination).

Modelling conventions:
* JavaScript numbers holding monetary amounts are modelled as `Int`
  (the sums the code computes are exact on integer inputs).
* Every `Date` the code builds from a transaction's `YYYY-MM-DD` string or
  from `new Date(y, m, d)` lies at a day boundary, so a timestamp is
  modelled by its civil day number (`daysFromCivil`); comparisons of
  `getTime()` values coincide with comparisons of day numbers.
* An Invalid Date (unparseable string) is modelled as `none`; all its
  numeric accessors are NaN, so every `<`, `≥` or `===` test on them is
  false, and a sort comparator producing NaN is treated as 0 by
  `Array.prototype.sort` (relative order kept).
* A JS object used as a string-keyed accumulator is modelled as an
  insertion-ordered association list, matching `Object.values` /
  `Object.entries` enumeration order for such keys.
-/

namespace LetsFinance

/-- Direction flag from `types.ts` (`TransactionType`:
INCOME = 'Pemasukan', EXPENSE = 'Pengeluaran'). -/
inductive TransactionType where
  | INCOME
  | EXPENSE
deriving DecidableEq, Repr

/-- Account type tag from `types.ts` (`'CASH' | 'BANK' | 'E-WALLET'`). -/
inductive AccountType where
  | CASH
  | BANK
  | EWALLET
deriving DecidableEq, Repr

/-- The `Account` record from `types.ts`. -/
structure Account where
  id : String
  name : String
  type : AccountType
  initialBalance : Int
deriving DecidableEq, Repr

/-- The `Transaction` record from `types.ts`; `merchant` and `accountId` are
optional fields. -/
structure Transaction where
  id : String
  date : String
  amount : Int
  type : TransactionType
  category : String
  description : String
  merchant : Option String := none
  accountId : Option String := none
deriving DecidableEq, Repr

/-- A calendar date as JavaScript `Date` accessors expose it:
`year` = `getFullYear()`, `month` = `getMonth()` (0-based),
`day` = `getDate()`. -/
structure CivilDate where
  year : Int
  month : Int
  day : Int
deriving DecidableEq, Repr

/-- Splits a character list at every `'-'`, the shape test used to read a
`YYYY-MM-DD` string. -/
def splitDash : List Char → List (List Char)
  | [] => [[]]
  | c :: rest =>
    match splitDash rest with
    | [] => [[]]
    | g :: gs => if c = '-' then [] :: g :: gs else (c :: g) :: gs

/-- Value of a decimal digit character, `none` for a non-digit. -/
def digitVal (c : Char) : Option Nat :=
  if '0' ≤ c ∧ c ≤ '9' then some (c.toNat - '0'.toNat) else none

/-- Reads a non-empty all-digit character list as a decimal number. -/
def digitsToNat : List Char → Option Nat
  | [] => none
  | l => l.foldl (fun acc c =>
      match acc, digitVal c with
      | some n, some d => some (n * 10 + d)
      | _, _ => none) (some 0)

/-- Evaluation of `new Date(s)` on a `YYYY-MM-DD` date string: `some` of the
civil date when the string is a well-formed date with in-range fields,
`none` for an Invalid Date. -/
def parseDate (s : String) : Option CivilDate :=
  match splitDash s.data with
  | [ys, ms, ds] =>
    match digitsToNat ys, digitsToNat ms, digitsToNat ds with
    | some y, some m, some d =>
      if 1 ≤ m ∧ m ≤ 12 ∧ 1 ≤ d ∧ d ≤ 31 then
        some ⟨(y : Int), (m : Int) - 1, (d : Int)⟩
      else none
    | _, _, _ => none
  | _ => none

/-- Strict lexicographic order on character lists, the comparison JavaScript
performs for `<` on strings (code-unit by code-unit; the date strings the
code compares are ASCII, where code units and code points agree). -/
def charListLt : List Char → List Char → Bool
  | [], [] => false
  | [], _ :: _ => true
  | _ :: _, [] => false
  | a :: as, b :: bs => if a < b then true else if b < a then false else charListLt as bs

/-- JavaScript `a < b` on strings. -/
def strLt (a b : String) : Bool := charListLt a.data b.data

/-- JavaScript `a <= b` on strings: the negation of `b < a` (string
comparison is total, there is no NaN case). -/
def strLe (a b : String) : Bool := !(strLt b a)

/-- Day number of a civil date counted from 1970-01-01 (Gregorian calendar,
standard civil-to-days conversion). All divisors are positive, so `/` and `%`
(`Int.ediv` / `Int.emod`) are exactly floor division and nonnegative
remainder here. -/
def daysFromCivil (dt : CivilDate) : Int :=
  let mi := dt.month + 1
  let y := if mi ≤ 2 then dt.year - 1 else dt.year
  let mp := (mi + 9) % 12
  let doy := (153 * mp + 2) / 5 + dt.day - 1
  365 * y + y / 4 - y / 100 + y / 400 + doy - 719468

/-- Year and month of `new Date(y, m, 1)` for a possibly out-of-range month
index `m`: JavaScript normalises the month into `[0, 11]` and carries
into the year. -/
def jsYearMonth (y m : Int) : Int × Int :=
  (y + m / 12, m % 12)

/-- Weekday of a civil date as `Date.prototype.getDay` returns it
(0 = Sunday … 6 = Saturday); 1970-01-01 was a Thursday (4). -/
def getDay (dt : CivilDate) : Int :=
  (daysFromCivil dt + 4) % 7

/-- Day number of the Monday 00:00 the Dashboard and Reports components
compute for a week: `const day = date.getDay() || 7` (Sunday remapped to 7),
then the date is moved back `day - 1` days and clamped to midnight. -/
def startOfWeek (now : CivilDate) : Int :=
  let day := if getDay now = 0 then 7 else getDay now
  daysFromCivil now - (day - 1)

/-- The period selector of the Dashboard component. -/
inductive DashboardPeriod where
  | TODAY
  | THIS_WEEK
  | THIS_MONTH
  | LAST_MONTH
  | THIS_YEAR
  | ALL
deriving DecidableEq, Repr

/-- The per-transaction predicate of `filteredTransactions` in the Dashboard
component. A transaction whose date string does not parse gives an
Invalid Date whose accessors are all NaN, failing every comparison and
equality test, so it matches only the ALL branch (which returns `true`
before looking at the date). -/
def dashboardMatches (period : DashboardPeriod) (now : CivilDate) (t : Transaction) : Bool :=
  match period, parseDate t.date with
  | .ALL, _ => true
  | _, none => false
  | .TODAY, some d =>
      -- `tDate >= startOfDay`: no upper bound in the source
      daysFromCivil now ≤ daysFromCivil d
  | .THIS_WEEK, some d => startOfWeek now ≤ daysFromCivil d
  | .THIS_MONTH, some d => d.month = now.month ∧ d.year = now.year
  | .LAST_MONTH, some d =>
      -- `new Date(now.getFullYear(), now.getMonth() - 1, 1)`
      let lm := jsYearMonth now.year (now.month - 1)
      d.month = lm.2 ∧ d.year = lm.1
  | .THIS_YEAR, some d => d.year = now.year

/-- `filteredTransactions` of the Dashboard component. -/
def filteredTransactions (period : DashboardPeriod) (now : CivilDate)
    (ts : List Transaction) : List Transaction :=
  ts.filter (dashboardMatches period now)

/-- Totals of the Dashboard `stats` memo (the category pie data it also
carries is the separate `dashboardCategoryData`). -/
structure DashboardStats where
  income : Int
  expense : Int
  balance : Int
deriving DecidableEq, Repr

/-- The accumulation loop of the Dashboard `stats` memo: one pass over the
filtered transactions, adding INCOME amounts to `income` and every other
amount to `expense`; `balance = income - expense`. -/
def dashboardStats (filtered : List Transaction) : DashboardStats :=
  let p := filtered.foldl
    (fun (acc : Int × Int) t =>
      if t.type = .INCOME then (acc.1 + t.amount, acc.2) else (acc.1, acc.2 + t.amount))
    (0, 0)
  { income := p.1, expense := p.2, balance := p.1 - p.2 }

/-- An account together with its derived balance, the element shape of the
Dashboard `accountBalances` memo (`{ ...acc, currentBalance }`). -/
structure AccountBalance extends Account where
  currentBalance : Int
deriving DecidableEq, Repr

/-- JavaScript `x || 0` on a number: `0` is the only falsy `Int` value. -/
def jsOrZero (x : Int) : Int := if x = 0 then 0 else x

/-- The Dashboard `accountBalances` memo: for each account, sum the INCOME and
EXPENSE amounts of the transactions referencing it over the **whole**
transaction list (not the period-filtered one) and derive
`currentBalance = (initialBalance || 0) + accIncome - accExpense`. -/
def accountBalances (transactions : List Transaction) (accounts : List Account) :
    List AccountBalance :=
  accounts.map (fun acc =>
    let accIncome := (transactions.filter
      (fun t => t.accountId = some acc.id ∧ t.type = .INCOME)).foldl
      (fun sum t => sum + t.amount) 0
    let accExpense := (transactions.filter
      (fun t => t.accountId = some acc.id ∧ t.type = .EXPENSE)).foldl
      (fun sum t => sum + t.amount) 0
    { toAccount := acc,
      currentBalance := jsOrZero acc.initialBalance + accIncome - accExpense })

/-- The data the Dashboard component derives from its props and the selected
period: period-filtered stats and the all-time account balances. -/
structure DashboardView where
  stats : DashboardStats
  accountBalances : List AccountBalance
deriving DecidableEq, Repr

/-- The Dashboard component's derived state for a period selection: `stats`
is computed from the period-filtered transactions, `accountBalances` from
the full transaction list. -/
def dashboardView (period : DashboardPeriod) (now : CivilDate)
    (ts : List Transaction) (accounts : List Account) : DashboardView :=
  { stats := dashboardStats (filteredTransactions period now ts),
    accountBalances := accountBalances ts accounts }

/-- The period selector of the Reports component. -/
inductive ReportPeriod where
  | WEEKLY
  | MONTHLY
  | YEARLY
  | CUSTOM
deriving DecidableEq, Repr

/-- The custom date range of the Reports component; `startDate` / `endDate`
model the source's `customRange.start` / `customRange.end` strings. -/
structure CustomRange where
  startDate : String
  endDate : String
deriving DecidableEq, Repr

/-- The per-transaction predicate of `filteredData` in the Reports component.
CUSTOM compares the raw `YYYY-MM-DD` strings; WEEKLY compares timestamps
against Monday 00:00 and Sunday 23:59:59.999 (at day granularity: the date
lies within 6 days after the Monday); MONTHLY and YEARLY compare calendar
fields. Invalid dates fail every branch except the raw string comparison
of CUSTOM. -/
def reportsMatches (period : ReportPeriod) (currentDate : CivilDate)
    (r : CustomRange) (t : Transaction) : Bool :=
  match period with
  | .CUSTOM => strLe r.startDate t.date && strLe t.date r.endDate
  | .WEEKLY =>
    match parseDate t.date with
    | none => false
    | some d =>
        startOfWeek currentDate ≤ daysFromCivil d ∧
        daysFromCivil d ≤ startOfWeek currentDate + 6
  | .MONTHLY =>
    match parseDate t.date with
    | none => false
    | some d => d.month = currentDate.month ∧ d.year = currentDate.year
  | .YEARLY =>
    match parseDate t.date with
    | none => false
    | some d => d.year = currentDate.year

/-- `filteredData` of the Reports component. -/
def filteredData (period : ReportPeriod) (currentDate : CivilDate)
    (r : CustomRange) (ts : List Transaction) : List Transaction :=
  ts.filter (reportsMatches period currentDate r)

/-- The Reports `stats` memo (`income`, `expense`, `profit`). -/
structure ReportStats where
  income : Int
  expense : Int
  profit : Int
deriving DecidableEq, Repr

/-- The accumulation loop of the Reports `stats` memo over the filtered data:
INCOME amounts add to `income`, everything else to `expense`;
`profit = income - expense`. -/
def reportsStats (filtered : List Transaction) : ReportStats :=
  let p := filtered.foldl
    (fun (acc : Int × Int) t =>
      if t.type = .INCOME then (acc.1 + t.amount, acc.2) else (acc.1, acc.2 + t.amount))
    (0, 0)
  { income := p.1, expense := p.2, profit := p.1 - p.2 }

/-- One `groups[cat] = (groups[cat] || 0) + amount` step on a JS object
modelled as an insertion-ordered association list: update the existing key
or append a new one. -/
def addToGroups (g : List (String × Int)) (cat : String) (amt : Int) :
    List (String × Int) :=
  if g.any (fun p => p.1 = cat) then
    g.map (fun p => if p.1 = cat then (p.1, p.2 + amt) else p)
  else g ++ [(cat, amt)]

/-- One line of the accounting report (`{ name, amount }`). -/
structure LineItem where
  name : String
  amount : Int
deriving DecidableEq, Repr

/-- The two line-item lists of the Reports `accountingData` memo. -/
structure AccountingData where
  incomeList : List LineItem
  expenseList : List LineItem
deriving DecidableEq, Repr

/-- The Reports `accountingData` memo: when categories are selected, restrict
the filtered data to them; group amounts by category within each direction
(JS object insertion order); turn each group map into `{name, amount}`
entries and sort them descending by amount (`Array.prototype.sort` is
stable; `le a b` here is `comparator (a, b) ≤ 0`). -/
def accountingData (filtered : List Transaction) (selectedCategories : List String) :
    AccountingData :=
  let dataToUse :=
    if selectedCategories.length > 0 then
      filtered.filter (fun t => selectedCategories.contains t.category)
    else filtered
  let groups := dataToUse.foldl
    (fun (acc : List (String × Int) × List (String × Int)) t =>
      if t.type = .INCOME then (addToGroups acc.1 t.category t.amount, acc.2)
      else (acc.1, addToGroups acc.2 t.category t.amount))
    ([], [])
  { incomeList :=
      (groups.1.map (fun p => LineItem.mk p.1 p.2)).mergeSort
        (fun a b => b.amount ≤ a.amount),
    expenseList :=
      (groups.2.map (fun p => LineItem.mk p.1 p.2)).mergeSort
        (fun a b => b.amount ≤ a.amount) }

/-- Net recomputed from accounting line items: the sum of the income lines'
amounts minus the sum of the expense lines' amounts. -/
def lineItemNet (a : AccountingData) : Int :=
  (a.incomeList.map (fun i => i.amount)).sum - (a.expenseList.map (fun i => i.amount)).sum

/-- English short month name, the key `toLocaleString('default',
\x7b month: 'short' \x7d)` produces for a month index; out-of-range indices
only arise from Invalid Dates, which the period filters already exclude. -/
def monthShort (m : Int) : String :=
  if m = 0 then "Jan" else if m = 1 then "Feb" else if m = 2 then "Mar"
  else if m = 3 then "Apr" else if m = 4 then "May" else if m = 5 then "Jun"
  else if m = 6 then "Jul" else if m = 7 then "Aug" else if m = 8 then "Sep"
  else if m = 9 then "Oct" else if m = 10 then "Nov" else if m = 11 then "Dec"
  else "InvalidMonth"

/-- One bucket of the Reports time-series chart
(`{ name, income, expense, sortDate }`). -/
structure ChartEntry where
  name : String
  income : Int
  expense : Int
  sortDate : Int
deriving DecidableEq, Repr

/-- The YEARLY pre-fill loop of the Reports `chartData` memo: one zero bucket
per month of the reference year, keyed by short month name, with
`sortDate = new Date(year, i, 1).getTime()` (modelled at day granularity). -/
def chartPrefill (year : Int) : List ChartEntry :=
  (List.range 12).map (fun i =>
    { name := monthShort (i : Int), income := 0, expense := 0,
      sortDate := daysFromCivil ⟨year, (i : Int), 1⟩ })

/-- One transaction's step of the YEARLY branch of the Reports `chartData`
accumulation: key by short month name, create the bucket if absent
(`sortDate` is the first of that month in the reference year), then add the
amount to the income or expense sum. The filtered data feeding this fold
contains only parseable dates, so the `none` branch is unreachable there. -/
def chartStepYearly (year : Int) (grouped : List ChartEntry) (t : Transaction) :
    List ChartEntry :=
  match parseDate t.date with
  | none => grouped
  | some d =>
    let key := monthShort d.month
    let sortDate := daysFromCivil ⟨year, d.month, 1⟩
    let grouped :=
      if grouped.any (fun e => e.name = key) then grouped
      else grouped ++ [{ name := key, income := 0, expense := 0, sortDate := sortDate }]
    grouped.map (fun e =>
      if e.name = key then
        if t.type = .INCOME then { e with income := e.income + t.amount }
        else { e with expense := e.expense + t.amount }
      else e)

/-- The YEARLY branch of the Reports `chartData` memo: pre-fill the 12 months
of the reference year, accumulate the filtered transactions, and sort the
buckets chronologically by `sortDate` (ascending comparator). -/
def chartDataYearly (year : Int) (filtered : List Transaction) : List ChartEntry :=
  ((filtered.foldl (chartStepYearly year) (chartPrefill year)).mergeSort
    (fun a b => a.sortDate ≤ b.sortDate))

/-- The Reports `filteredExpenseData` memo: expense transactions of the
filtered data, optionally narrowed to the selected categories. -/
def filteredExpenseData (filtered : List Transaction) (selectedCategories : List String) :
    List Transaction :=
  let expenses := filtered.filter (fun t => t.type = .EXPENSE)
  if selectedCategories.length > 0 then
    expenses.filter (fun t => selectedCategories.contains t.category)
  else expenses

/-- The Reports `topExpenses` memo with the array mutation made explicit:
`filteredExpenseData.sort(...)` sorts **in place** (stable, descending by
amount) and `.slice(0, 5)` copies the first five elements. The first
component is the returned top-5 list; the second is the state of the
`filteredExpenseData` array after the call. -/
def topExpensesRun (fed : List Transaction) : List Transaction × List Transaction :=
  let sorted := fed.mergeSort (fun a b => b.amount ≤ a.amount)
  (sorted.take 5, sorted)

/-- The type filter of the TransactionList component. -/
inductive FilterType where
  | ALL
  | INCOME
  | EXPENSE
deriving DecidableEq, Repr

/-- The sort selector of the TransactionList component. -/
inductive SortOrder where
  | NEWEST
  | OLDEST
  | HIGHEST
  | LOWEST
deriving DecidableEq, Repr

/-- Substring containment on character lists (JavaScript
`String.prototype.includes`). -/
def listContainsSub (pat : List Char) : List Char → Bool
  | [] => pat.isEmpty
  | c :: rest => List.isPrefixOf pat (c :: rest) || listContainsSub pat rest

/-- JavaScript `s.includes(pat)`. -/
def strIncludes (s pat : String) : Bool := listContainsSub pat.data s.data

/-- The search predicate of `processedTransactions`: case-insensitive
substring match over description, category and merchant (a falsy merchant,
absent or empty, contributes `false`), plus a raw substring match against
the amount rendered as a decimal string. -/
def matchesSearch (searchTerm : String) (t : Transaction) : Bool :=
  strIncludes t.description.toLower searchTerm.toLower ||
  strIncludes t.category.toLower searchTerm.toLower ||
  (match t.merchant with
   | some m => !m.isEmpty && strIncludes m.toLower searchTerm.toLower
   | none => false) ||
  strIncludes (toString t.amount) searchTerm

/-- The direction filter of `processedTransactions`. -/
def matchesType (filterType : FilterType) (t : Transaction) : Bool :=
  match filterType with
  | .ALL => true
  | .INCOME => t.type = .INCOME
  | .EXPENSE => t.type = .EXPENSE

/-- Day-number timestamp of a transaction's date; `none` models the NaN
`getTime()` of an Invalid Date. -/
def dateNum (t : Transaction) : Option Int := (parseDate t.date).map daysFromCivil

/-- The sort comparator of `processedTransactions` as the `le` relation fed
to a stable sort: `le a b` holds when the source comparator returns ≤ 0 on
`(a, b)`, i.e. `a` may stay before `b`. A comparator involving a NaN
timestamp returns NaN, which `Array.prototype.sort` treats as 0 (keep
relative order), hence `true`. -/
def sortLe (order : SortOrder) (a b : Transaction) : Bool :=
  match order with
  | .NEWEST =>
    match dateNum a, dateNum b with
    | some x, some y => y ≤ x
    | _, _ => true
  | .OLDEST =>
    match dateNum a, dateNum b with
    | some x, some y => x ≤ y
    | _, _ => true
  | .HIGHEST => b.amount ≤ a.amount
  | .LOWEST => a.amount ≤ b.amount

/-- `processedTransactions` of the TransactionList component: filter by
search term and direction, then stable-sort by the selected order. The
source's `result.sort(...)` mutates `result`, which is the fresh array the
`filter` call returned, so the input `transactions` array is untouched. -/
def processedTransactions (ts : List Transaction) (searchTerm : String)
    (filterType : FilterType) (order : SortOrder) : List Transaction :=
  (ts.filter (fun t => matchesSearch searchTerm t && matchesType filterType t)).mergeSort
    (sortLe order)

/-- `ITEMS_PER_PAGE` of the TransactionList component. -/
def ITEMS_PER_PAGE : Nat := 10

/-- `Math.ceil(length / ITEMS_PER_PAGE)`, the page count. -/
def totalPages (n : Nat) : Nat := (n + ITEMS_PER_PAGE - 1) / ITEMS_PER_PAGE

/-- `paginatedTransactions`: the slice
`[(currentPage - 1) * ITEMS_PER_PAGE, currentPage * ITEMS_PER_PAGE)` of the
processed list (pages are 1-indexed). -/
def paginatedTransactions (l : List Transaction) (currentPage : Nat) : List Transaction :=
  (l.drop ((currentPage - 1) * ITEMS_PER_PAGE)).take ITEMS_PER_PAGE

/-- JavaScript truthiness test `!x` for an optional string: `undefined` and
the empty string are falsy. -/
def jsFalsyStr : Option String → Bool
  | none => true
  | some s => s.isEmpty

/-- The transaction migration inside the App load effect: every loaded
transaction without a (truthy) `accountId` gets the default account id. -/
def migrateTransactions (defaultAccountId : String) (l : List Transaction) :
    List Transaction :=
  l.map (fun t =>
    if jsFalsyStr t.accountId then { t with accountId := some defaultAccountId } else t)

/-- The account loading step of the App load effect: parsed stored accounts
when present and non-empty, otherwise the two built-in default accounts.
`none` models both a missing key and a JSON parse failure. -/
def loadAccounts (saved : Option (List Account)) : List Account :=
  let loaded := match saved with | some l => l | none => []
  if loaded.isEmpty then
    [{ id := "1", name := "Kas Tunai", type := .CASH, initialBalance := 0 },
     { id := "2", name := "Rekening Bank", type := .BANK, initialBalance := 0 }]
  else loaded

/-- `loadedAccounts[0]?.id || '1'`: the first account's id, falling back to
`"1"` when there is no first account or its id is falsy. -/
def defaultAccountIdOf (accounts : List Account) : String :=
  match accounts.head? with
  | some a => if a.id.isEmpty then "1" else a.id
  | none => "1"

/-- The transaction loading step of the App load effect: migrate stored
transactions when present, otherwise seed the demo transaction whose
`accountId` is the first loaded account's id. -/
def loadTransactions (accounts : List Account) (saved : Option (List Transaction))
    (today : String) : List Transaction :=
  match saved with
  | some l => migrateTransactions (defaultAccountIdOf accounts) l
  | none =>
    [{ id := "1", date := today, amount := 5000000, type := .INCOME,
       category := "Penjualan", description := "Penjualan Mingguan",
       merchant := some "Toko", accountId := accounts.head?.map (fun a => a.id) }]

/-- The App `addTransaction` handler: fill a falsy `accountId` with the first
account's id when an account exists, stamp a fresh id, and prepend to the
stored list. -/
def addTransaction (accounts : List Account) (t : Transaction) (newId : String)
    (prev : List Transaction) : List Transaction :=
  let txData :=
    match accounts with
    | [] => t
    | a :: _ => if jsFalsyStr t.accountId then { t with accountId := some a.id } else t
  { txData with id := newId } :: prev

/-- Statement-side shorthand: sum of the amounts of the INCOME transactions
of a list. -/
def sumIncome (l : List Transaction) : Int :=
  ((l.filter (fun t => t.type = .INCOME)).map (fun t => t.amount)).sum

/-- Statement-side shorthand: sum of the amounts of the EXPENSE transactions
of a list. -/
def sumExpense (l : List Transaction) : Int :=
  ((l.filter (fun t => t.type = .EXPENSE)).map (fun t => t.amount)).sum

/-- Statement-side shorthand: the month index of a transaction's parsed date. -/
def monthOf (t : Transaction) : Option Int :=
  (parseDate t.date).map (fun d => d.month)

/-- The three transaction arrays alive in the Reports component when
`topExpenses` runs: the `transactions` prop and the memoized `filteredData`
and `filteredExpenseData` subsets. -/
structure ReportsArrays where
  transactions : List Transaction
  filteredData : List Transaction
  filteredExpenseData : List Transaction
deriving DecidableEq, Repr

/-- Proof-side normal form for the yearly chart accumulator: the 12 month
buckets of year `Y` in calendar order, with income and expense sums given
by `I` and `E`. `chartPrefill Y` is `mkAcc Y 0 0` by definition. -/
def mkAcc (Y : Int) (I E : Nat → Int) : List ChartEntry :=
  (List.range 12).map (fun (i : Nat) =>
    { name := monthShort (i : Int), income := I i, expense := E i,
      sortDate := daysFromCivil ⟨Y, (i : Int), 1⟩ })

/-- The `topExpenses` computation acting on the component's arrays:
`filteredExpenseData.sort(...)` reorders that array in place, `.slice(0, 5)`
copies the result; the other arrays are not touched. Returns the top-5 list
together with the post-call array states. -/
def reportsTopExpensesStep (s : ReportsArrays) : List Transaction × ReportsArrays :=
  let r := topExpensesRun s.filteredExpenseData
  (r.1, { s with filteredExpenseData := r.2 })

/-! ### Order lemmas for the embedded string comparison -/

theorem charListLt_irrefl (a : List Char) : charListLt a a = false := by
  induction a with
  | nil => rfl
  | cons c cs ih => simp [charListLt, ih]

theorem charListLt_trans : ∀ a b c : List Char, charListLt a b = true →
    charListLt b c = true → charListLt a c = true := by
  intro a
  induction a with
  | nil =>
    intro b c hab hbc
    cases c with
    | nil =>
      cases b with
      | nil => exact hab
      | cons y ys => simp [charListLt] at hbc
    | cons z zs => rfl
  | cons x xs ih =>
    intro b c hab hbc
    cases b with
    | nil => simp [charListLt] at hab
    | cons y ys =>
      cases c with
      | nil => simp [charListLt] at hbc
      | cons z zs =>
        simp only [charListLt] at hab hbc ⊢
        rcases lt_trichotomy x y with hxy | hxy | hxy
        · rcases lt_trichotomy y z with hyz | hyz | hyz
          · simp [lt_trans hxy hyz]
          · subst hyz; simp [hxy]
          · rw [if_neg (asymm hyz), if_pos hyz] at hbc; simp at hbc
        · subst hxy
          rw [if_neg (lt_irrefl x), if_neg (lt_irrefl x)] at hab
          rcases lt_trichotomy x z with hxz | hxz | hxz
          · simp [hxz]
          · subst hxz
            rw [if_neg (lt_irrefl x), if_neg (lt_irrefl x)] at hbc
            simp [lt_irrefl, ih ys zs hab hbc]
          · rw [if_neg (asymm hxz), if_pos hxz] at hbc; simp at hbc
        · rw [if_neg (asymm hxy), if_pos hxy] at hab; simp at hab

theorem charListLt_total : ∀ a b : List Char,
    charListLt a b = true ∨ charListLt b a = true ∨ a = b := by
  intro a
  induction a with
  | nil =>
    intro b
    cases b with
    | nil => right; right; rfl
    | cons y ys => left; rfl
  | cons x xs ih =>
    intro b
    cases b with
    | nil => right; left; rfl
    | cons y ys =>
      rcases lt_trichotomy x y with h | h | h
      · left; simp [charListLt, h]
      · subst h
        rcases ih ys with h2 | h2 | h2
        · left; simp [charListLt, lt_irrefl, h2]
        · right; left; simp [charListLt, lt_irrefl, h2]
        · right; right; rw [h2]
      · right; left; simp [charListLt, h]

/-- A string cannot lie weakly between two strings in the wrong order: if
`b < a` then no `s` satisfies `a <= s` and `s <= b`. -/
theorem strLe_between_empty (a b s : String) (h : strLt b a = true) :
    ¬(strLe a s = true ∧ strLe s b = true) := by
  rintro ⟨h1, h2⟩
  simp only [strLe, strLt, Bool.not_eq_eq_eq_not, Bool.not_true] at h1 h2
  simp only [strLt] at h
  rcases charListLt_total b.data s.data with hbs | hbs | hbs
  · rw [hbs] at h2; cases h2
  · have := charListLt_trans s.data b.data a.data hbs h
    rw [this] at h1; cases h1
  · rw [hbs] at h
    rw [h] at h1; cases h1

/-! ### C4: CUSTOM period membership -/

/-- C4 (confirmed). For the CUSTOM period, a transaction is in the filtered
subset iff it is in the input list and its raw date string lies weakly
between the custom start and end strings under the (JavaScript,
lexicographic) string comparison — both endpoints inclusive. -/
theorem claim_C4_custom_membership (currentDate : CivilDate) (r : CustomRange)
    (ts : List Transaction) (t : Transaction) :
    t ∈ filteredData .CUSTOM currentDate r ts ↔
      t ∈ ts ∧ strLe r.startDate t.date = true ∧ strLe t.date r.endDate = true := by
  simp [filteredData, List.mem_filter, reportsMatches]

/-! ### C5: inverted custom range -/

/-- C5 (confirmed). A custom range whose end string precedes its start string
filters every transaction out: the subset is empty, and the stats derived
from it are all zero. (The embedded pipeline is a total function: no branch
can raise an error.) -/
theorem claim_C5_inverted_range_empty (currentDate : CivilDate) (r : CustomRange)
    (ts : List Transaction) (h : strLt r.endDate r.startDate = true) :
    filteredData .CUSTOM currentDate r ts = [] ∧
    reportsStats (filteredData .CUSTOM currentDate r ts) = ⟨0, 0, 0⟩ := by
  have hempty : filteredData .CUSTOM currentDate r ts = [] := by
    apply List.filter_eq_nil_iff.mpr
    intro t _
    simp only [reportsMatches, Bool.and_eq_true, not_and]
    intro h1 h2
    exact absurd ⟨h1, h2⟩ (strLe_between_empty r.startDate r.endDate t.date h)
  exact ⟨hempty, by rw [hempty]; rfl⟩

/-- Witness for C5 at a concrete inverted range. -/
theorem claim_C5_witness :
    strLt "2024-05-01" "2024-05-10" = true ∧
    (filteredData .CUSTOM ⟨2024, 4, 20⟩ ⟨"2024-05-10", "2024-05-01"⟩
        [{ id := "1", date := "2024-05-05", amount := 100, type := .INCOME,
           category := "Penjualan", description := "x" }] = [] ∧
      reportsStats (filteredData .CUSTOM ⟨2024, 4, 20⟩ ⟨"2024-05-10", "2024-05-01"⟩
        [{ id := "1", date := "2024-05-05", amount := 100, type := .INCOME,
           category := "Penjualan", description := "x" }]) = ⟨0, 0, 0⟩) :=
  ⟨by decide,
   claim_C5_inverted_range_empty ⟨2024, 4, 20⟩ ⟨"2024-05-10", "2024-05-01"⟩ _ (by decide)⟩

/-! ### Sum bridges for folds -/

theorem foldl_add_amount (l : List Transaction) : ∀ a : Int,
    l.foldl (fun sum t => sum + t.amount) a = a + (l.map (fun t => t.amount)).sum := by
  induction l with
  | nil => intro a; simp
  | cons t rest ih =>
    intro a
    simp only [List.foldl_cons, List.map_cons, List.sum_cons, ih]
    ring

theorem statsFold (l : List Transaction) : ∀ a b : Int,
    l.foldl (fun (acc : Int × Int) t =>
        if t.type = .INCOME then (acc.1 + t.amount, acc.2)
        else (acc.1, acc.2 + t.amount)) (a, b)
      = (a + sumIncome l, b + sumExpense l) := by
  induction l with
  | nil => intro a b; simp [sumIncome, sumExpense]
  | cons t rest ih =>
    intro a b
    cases ht : t.type with
    | INCOME =>
      simp only [List.foldl_cons, ht, if_pos rfl, ih, sumIncome, sumExpense,
        List.filter_cons, ht]
      simp [add_assoc]
    | EXPENSE =>
      have hne : (t.type = TransactionType.INCOME) = False := by simp [ht]
      simp only [List.foldl_cons, ht, ih, sumIncome, sumExpense, List.filter_cons]
      simp [ht, add_assoc]

theorem reportsStats_eq (l : List Transaction) :
    reportsStats l = ⟨sumIncome l, sumExpense l, sumIncome l - sumExpense l⟩ := by
  unfold reportsStats
  rw [statsFold]
  simp

theorem dashboardStats_eq (l : List Transaction) :
    dashboardStats l = ⟨sumIncome l, sumExpense l, sumIncome l - sumExpense l⟩ := by
  unfold dashboardStats
  rw [statsFold]
  simp

/-! ### C2: account balances -/

/-- C2 (confirmed). The Dashboard's reported balances: for every account, the
derived `currentBalance` is the account's initial balance plus the sum of
INCOME amounts referencing it minus the sum of EXPENSE amounts referencing
it, computed over the **whole** transaction list; and the balances produced
by the component are identical for every period selection. -/
theorem claim_C2_account_balances (period : DashboardPeriod) (now : CivilDate)
    (ts : List Transaction) (accounts : List Account) :
    (dashboardView period now ts accounts).accountBalances =
      accounts.map (fun a =>
        { toAccount := a,
          currentBalance := a.initialBalance
            + sumIncome (ts.filter (fun t => t.accountId = some a.id))
            - sumExpense (ts.filter (fun t => t.accountId = some a.id)) }) ∧
    ∀ period' now', (dashboardView period now ts accounts).accountBalances =
      (dashboardView period' now' ts accounts).accountBalances := by
  constructor
  · show accountBalances ts accounts = _
    unfold accountBalances
    apply List.map_congr_left
    intro a _
    rw [foldl_add_amount, foldl_add_amount]
    have hinc : ts.filter (fun t => t.accountId = some a.id ∧ t.type = TransactionType.INCOME)
        = (ts.filter (fun t => t.accountId = some a.id)).filter
            (fun t => t.type = TransactionType.INCOME) := by
      rw [List.filter_filter]
      apply List.filter_congr
      intro t _
      simp [And.comm]
    have hexp : ts.filter (fun t => t.accountId = some a.id ∧ t.type = TransactionType.EXPENSE)
        = (ts.filter (fun t => t.accountId = some a.id)).filter
            (fun t => t.type = TransactionType.EXPENSE) := by
      rw [List.filter_filter]
      apply List.filter_congr
      intro t _
      simp [And.comm]
    have hz : jsOrZero a.initialBalance = a.initialBalance := by
      unfold jsOrZero
      split <;> omega
    rw [hinc, hexp, hz]
    simp [sumIncome, sumExpense]
  · intro _ _
    rfl

/-! ### Grouping lemmas for the accounting report -/

theorem groups_update_keys (g : List (String × Int)) (c : String) (amt : Int) :
    (g.map (fun p => if p.1 = c then (p.1, p.2 + amt) else p)).map Prod.fst
      = g.map Prod.fst := by
  rw [List.map_map]
  apply List.map_congr_left
  intro p _
  by_cases h : p.1 = c <;> simp [h]

theorem addToGroups_keys_nodup (g : List (String × Int)) (c : String) (amt : Int)
    (h : (g.map Prod.fst).Nodup) : ((addToGroups g c amt).map Prod.fst).Nodup := by
  unfold addToGroups
  by_cases hany : g.any (fun p => p.1 = c) = true
  · rw [if_pos hany, groups_update_keys]
    exact h
  · rw [if_neg hany]
    have hc : c ∉ g.map Prod.fst := by
      intro hmem
      apply hany
      obtain ⟨p, hp, hpc⟩ := List.mem_map.mp hmem
      exact List.any_eq_true.mpr ⟨p, hp, by simp [hpc]⟩
    simp [List.nodup_append, h, hc]

theorem groups_update_sum (c : String) (amt : Int) : ∀ g : List (String × Int),
    (g.map Prod.fst).Nodup → g.any (fun p => p.1 = c) = true →
    ((g.map (fun p => if p.1 = c then (p.1, p.2 + amt) else p)).map Prod.snd).sum
      = (g.map Prod.snd).sum + amt := by
  intro g
  induction g with
  | nil => intro _ h; simp at h
  | cons p g' ih =>
    intro hnd hany
    have hnd2 : (p.1 :: g'.map Prod.fst).Nodup := by simpa using hnd
    obtain ⟨hp_notin, hnd'⟩ := List.nodup_cons.mp hnd2
    by_cases hp : p.1 = c
    · have htail : g'.map (fun q => if q.1 = c then (q.1, q.2 + amt) else q) = g' := by
        conv_rhs => rw [← List.map_id g']
        apply List.map_congr_left
        intro q hq
        have hq1 : q.1 ≠ c := by
          intro hqc
          exact hp_notin (hp ▸ hqc ▸ List.mem_map.mpr ⟨q, hq, rfl⟩)
        simp [hq1]
      simp only [List.map_cons, if_pos hp, htail, List.sum_cons]
      ring
    · have hany' : g'.any (fun q => q.1 = c) = true := by
        rcases List.any_eq_true.mp hany with ⟨q, hq, hqc⟩
        rcases List.mem_cons.mp hq with hq | hq
        · subst hq; simp at hqc; exact absurd hqc hp
        · exact List.any_eq_true.mpr ⟨q, hq, hqc⟩
      simp only [List.map_cons, if_neg hp, List.sum_cons]
      rw [ih hnd' hany']
      ring

theorem addToGroups_sum (g : List (String × Int)) (c : String) (amt : Int)
    (hnd : (g.map Prod.fst).Nodup) :
    ((addToGroups g c amt).map Prod.snd).sum = (g.map Prod.snd).sum + amt := by
  unfold addToGroups
  by_cases hany : g.any (fun p => p.1 = c) = true
  · rw [if_pos hany]
    exact groups_update_sum c amt g hnd hany
  · rw [if_neg hany]
    simp

theorem accGroupsFold : ∀ (l : List Transaction) (g1 g2 : List (String × Int)),
    (g1.map Prod.fst).Nodup → (g2.map Prod.fst).Nodup →
    (((l.foldl (fun (acc : List (String × Int) × List (String × Int)) t =>
        if t.type = .INCOME then (addToGroups acc.1 t.category t.amount, acc.2)
        else (acc.1, addToGroups acc.2 t.category t.amount)) (g1, g2)).1.map
          Prod.fst).Nodup ∧
     ((l.foldl (fun (acc : List (String × Int) × List (String × Int)) t =>
        if t.type = .INCOME then (addToGroups acc.1 t.category t.amount, acc.2)
        else (acc.1, addToGroups acc.2 t.category t.amount)) (g1, g2)).2.map
          Prod.fst).Nodup) ∧
    ((l.foldl (fun (acc : List (String × Int) × List (String × Int)) t =>
        if t.type = .INCOME then (addToGroups acc.1 t.category t.amount, acc.2)
        else (acc.1, addToGroups acc.2 t.category t.amount)) (g1, g2)).1.map
          Prod.snd).sum = (g1.map Prod.snd).sum + sumIncome l ∧
    ((l.foldl (fun (acc : List (String × Int) × List (String × Int)) t =>
        if t.type = .INCOME then (addToGroups acc.1 t.category t.amount, acc.2)
        else (acc.1, addToGroups acc.2 t.category t.amount)) (g1, g2)).2.map
          Prod.snd).sum = (g2.map Prod.snd).sum + sumExpense l := by
  intro l
  induction l with
  | nil => intro g1 g2 h1 h2; simp [sumIncome, sumExpense, h1, h2]
  | cons t rest ih =>
    intro g1 g2 h1 h2
    cases ht : t.type with
    | INCOME =>
      have step : (if t.type = TransactionType.INCOME
          then (addToGroups g1 t.category t.amount, g2)
          else (g1, addToGroups g2 t.category t.amount))
            = (addToGroups g1 t.category t.amount, g2) := by simp [ht]
      have := ih (addToGroups g1 t.category t.amount) g2
        (addToGroups_keys_nodup g1 t.category t.amount h1) h2
      simp only [List.foldl_cons, step] at this ⊢
      refine ⟨this.1, ?_, ?_⟩
      · rw [this.2.1, addToGroups_sum g1 t.category t.amount h1]
        simp [sumIncome, List.filter_cons, ht]
        ring
      · rw [this.2.2]
        simp [sumExpense, List.filter_cons, ht]
    | EXPENSE =>
      have step : (if t.type = TransactionType.INCOME
          then (addToGroups g1 t.category t.amount, g2)
          else (g1, addToGroups g2 t.category t.amount))
            = (g1, addToGroups g2 t.category t.amount) := by simp [ht]
      have := ih g1 (addToGroups g2 t.category t.amount) h1
        (addToGroups_keys_nodup g2 t.category t.amount h2)
      simp only [List.foldl_cons, step] at this ⊢
      refine ⟨this.1, ?_, ?_⟩
      · rw [this.2.1]
        simp [sumIncome, List.filter_cons, ht]
      · rw [this.2.2, addToGroups_sum g2 t.category t.amount h2]
        simp [sumExpense, List.filter_cons, ht]
        ring

theorem accountingData_sums (filtered : List Transaction) (cats : List String) :
    ((accountingData filtered cats).incomeList.map (fun i => i.amount)).sum
      = sumIncome (if cats.length > 0 then
          filtered.filter (fun t => cats.contains t.category) else filtered) ∧
    ((accountingData filtered cats).expenseList.map (fun i => i.amount)).sum
      = sumExpense (if cats.length > 0 then
          filtered.filter (fun t => cats.contains t.category) else filtered) := by
  unfold accountingData
  set dataToUse := if cats.length > 0 then
    filtered.filter (fun t => cats.contains t.category) else filtered with hdata
  have hfold := accGroupsFold dataToUse [] [] (by simp) (by simp)
  constructor
  · have hperm := (List.mergeSort_perm
      ((dataToUse.foldl (fun (acc : List (String × Int) × List (String × Int)) t =>
        if t.type = .INCOME then (addToGroups acc.1 t.category t.amount, acc.2)
        else (acc.1, addToGroups acc.2 t.category t.amount)) ([], [])).1.map
          (fun p => LineItem.mk p.1 p.2))
      (fun a b => b.amount ≤ a.amount)).map (fun i => i.amount)
    rw [hperm.sum_eq, List.map_map]
    have : ((fun i => i.amount) ∘ (fun (p : String × Int) => LineItem.mk p.1 p.2))
        = Prod.snd := by
      funext p
      rfl
    rw [this]
    simpa using hfold.2.1
  · have hperm := (List.mergeSort_perm
      ((dataToUse.foldl (fun (acc : List (String × Int) × List (String × Int)) t =>
        if t.type = .INCOME then (addToGroups acc.1 t.category t.amount, acc.2)
        else (acc.1, addToGroups acc.2 t.category t.amount)) ([], [])).2.map
          (fun p => LineItem.mk p.1 p.2))
      (fun a b => b.amount ≤ a.amount)).map (fun i => i.amount)
    rw [hperm.sum_eq, List.map_map]
    have : ((fun i => i.amount) ∘ (fun (p : String × Int) => LineItem.mk p.1 p.2))
        = Prod.snd := by
      funext p
      rfl
    rw [this]
    simpa using hfold.2.2

/-! ### C1: visual and accounting nets -/

/-- C1 (amended form, proved). For every transaction list, period and custom
range, the visual-mode totals satisfy `profit = income - expense`; and when
the category selection is empty, the net recomputed from the accounting-mode
line items equals the visual-mode net exactly. (With a non-empty category
selection the accounting line items are narrowed while the visual totals are
not, and the two nets can differ — see the counterexample.) -/
theorem claim_C1_net_consistency (period : ReportPeriod) (currentDate : CivilDate)
    (r : CustomRange) (ts : List Transaction) (selectedCategories : List String) :
    (reportsStats (filteredData period currentDate r ts)).profit
      = (reportsStats (filteredData period currentDate r ts)).income
        - (reportsStats (filteredData period currentDate r ts)).expense ∧
    (selectedCategories = [] →
      lineItemNet (accountingData (filteredData period currentDate r ts)
          selectedCategories)
        = (reportsStats (filteredData period currentDate r ts)).profit) := by
  constructor
  · rw [reportsStats_eq]
  · intro h
    subst h
    have hs := accountingData_sums (filteredData period currentDate r ts) []
    norm_num at hs
    unfold lineItemNet
    rw [hs.1, hs.2, reportsStats_eq]

/-- Witness for C1 at a concrete list with the empty category selection. -/
theorem claim_C1_witness :
    (reportsStats (filteredData .MONTHLY ⟨2024, 2, 15⟩ ⟨"", ""⟩
        [{ id := "1", date := "2024-03-01", amount := 100, type := .INCOME,
           category := "Penjualan", description := "a" },
         { id := "2", date := "2024-03-01", amount := 40, type := .EXPENSE,
           category := "Makanan", description := "b" }])).profit
      = (reportsStats (filteredData .MONTHLY ⟨2024, 2, 15⟩ ⟨"", ""⟩
        [{ id := "1", date := "2024-03-01", amount := 100, type := .INCOME,
           category := "Penjualan", description := "a" },
         { id := "2", date := "2024-03-01", amount := 40, type := .EXPENSE,
           category := "Makanan", description := "b" }])).income
        - (reportsStats (filteredData .MONTHLY ⟨2024, 2, 15⟩ ⟨"", ""⟩
        [{ id := "1", date := "2024-03-01", amount := 100, type := .INCOME,
           category := "Penjualan", description := "a" },
         { id := "2", date := "2024-03-01", amount := 40, type := .EXPENSE,
           category := "Makanan", description := "b" }])).expense ∧
    lineItemNet (accountingData (filteredData .MONTHLY ⟨2024, 2, 15⟩ ⟨"", ""⟩
        [{ id := "1", date := "2024-03-01", amount := 100, type := .INCOME,
           category := "Penjualan", description := "a" },
         { id := "2", date := "2024-03-01", amount := 40, type := .EXPENSE,
           category := "Makanan", description := "b" }]) [])
      = (reportsStats (filteredData .MONTHLY ⟨2024, 2, 15⟩ ⟨"", ""⟩
        [{ id := "1", date := "2024-03-01", amount := 100, type := .INCOME,
           category := "Penjualan", description := "a" },
         { id := "2", date := "2024-03-01", amount := 40, type := .EXPENSE,
           category := "Makanan", description := "b" }])).profit :=
  ⟨(claim_C1_net_consistency .MONTHLY ⟨2024, 2, 15⟩ ⟨"", ""⟩ _ []).1,
   (claim_C1_net_consistency .MONTHLY ⟨2024, 2, 15⟩ ⟨"", ""⟩ _ []).2 rfl⟩

/-- C1 as frozen is false: with the non-empty category selection `["X"]`
matching nothing, the accounting line items are empty (net 0) while the
visual-mode net over the same period is 100. -/
theorem claim_C1_counterexample :
    lineItemNet (accountingData (filteredData .CUSTOM ⟨2024, 0, 1⟩
        ⟨"2024-01-01", "2024-12-31"⟩
        [{ id := "1", date := "2024-06-15", amount := 100, type := .INCOME,
           category := "Penjualan", description := "a" }]) ["X"])
      ≠ (reportsStats (filteredData .CUSTOM ⟨2024, 0, 1⟩
        ⟨"2024-01-01", "2024-12-31"⟩
        [{ id := "1", date := "2024-06-15", amount := 100, type := .INCOME,
           category := "Penjualan", description := "a" }])).profit := by
  have hfd : filteredData .CUSTOM ⟨2024, 0, 1⟩ ⟨"2024-01-01", "2024-12-31"⟩
      [{ id := "1", date := "2024-06-15", amount := 100, type := .INCOME,
         category := "Penjualan", description := "a" }]
      = [{ id := "1", date := "2024-06-15", amount := 100, type := .INCOME,
           category := "Penjualan", description := "a" }] := by decide
  rw [hfd]
  have hempty : List.filter (fun (t : Transaction) => (["X"] : List String).contains t.category)
      [{ id := "1", date := "2024-06-15", amount := 100, type := .INCOME,
         category := "Penjualan", description := "a" }] = [] := by decide
  have hacc : accountingData
      [{ id := "1", date := "2024-06-15", amount := 100, type := .INCOME,
         category := "Penjualan", description := "a" }] ["X"] = ⟨[], []⟩ := by
    unfold accountingData
    simp [hempty, List.mergeSort_nil]
  rw [hacc]
  have hprofit : (reportsStats
      [{ id := "1", date := "2024-06-15", amount := 100, type := .INCOME,
         category := "Penjualan", description := "a" }]).profit = 100 := by decide
  rw [hprofit]
  decide

/-! ### C3: pagination -/

theorem pagesJoin : ∀ (k : Nat) (l : List Transaction),
    l.length ≤ ITEMS_PER_PAGE * k →
    ((List.range k).map (fun i => paginatedTransactions l (i + 1))).flatten = l := by
  intro k
  induction k with
  | zero =>
    intro l hl
    simp at hl
    simp [hl]
  | succ k ih =>
    intro l hl
    rw [List.range_succ_eq_map, List.map_cons, List.map_map, List.flatten_cons]
    have h0 : paginatedTransactions l (0 + 1) = l.take ITEMS_PER_PAGE := by
      simp [paginatedTransactions]
    have hshift : ((List.range k).map ((fun i => paginatedTransactions l (i + 1)) ∘ Nat.succ))
        = (List.range k).map (fun i => paginatedTransactions (l.drop ITEMS_PER_PAGE) (i + 1)) := by
      apply List.map_congr_left
      intro i _
      simp only [Function.comp_apply, paginatedTransactions]
      rw [List.drop_drop]
      have harith : (Nat.succ i + 1 - 1) * ITEMS_PER_PAGE
          = ITEMS_PER_PAGE + (i + 1 - 1) * ITEMS_PER_PAGE := by
        simp only [ITEMS_PER_PAGE]
        omega
      rw [harith]
    have hlen : (l.drop ITEMS_PER_PAGE).length ≤ ITEMS_PER_PAGE * k := by
      simp only [List.length_drop, ITEMS_PER_PAGE] at hl ⊢
      omega
    rw [h0, hshift, ih (l.drop ITEMS_PER_PAGE) hlen]
    exact List.take_append_drop ITEMS_PER_PAGE l

/-- C3 (amended form, proved). For the processed (filtered and sorted) list
with page size 10: `totalPages` is the exact ceiling of `count / 10`
(characterised by `count ≤ 10 * totalPages < count + 10`), the concatenation
of pages `1 .. totalPages` is the processed list itself, and a requested
page number beyond `totalPages` yields the **empty** list (the component's
navigation buttons clamp the page into `[1, totalPages]`, so such a request
never arises from the UI). -/
theorem claim_C3_pagination (ts : List Transaction) (searchTerm : String)
    (filterType : FilterType) (order : SortOrder) :
    (processedTransactions ts searchTerm filterType order).length
        ≤ ITEMS_PER_PAGE * totalPages (processedTransactions ts searchTerm filterType order).length ∧
    ITEMS_PER_PAGE * totalPages (processedTransactions ts searchTerm filterType order).length
        < (processedTransactions ts searchTerm filterType order).length + ITEMS_PER_PAGE ∧
    ((List.range (totalPages (processedTransactions ts searchTerm filterType order).length)).map
        (fun i => paginatedTransactions (processedTransactions ts searchTerm filterType order) (i + 1))).flatten
      = processedTransactions ts searchTerm filterType order ∧
    ∀ p : Nat, totalPages (processedTransactions ts searchTerm filterType order).length < p →
      paginatedTransactions (processedTransactions ts searchTerm filterType order) p = [] := by
  set l := processedTransactions ts searchTerm filterType order with hl
  have hceil1 : l.length ≤ ITEMS_PER_PAGE * totalPages l.length := by
    simp only [totalPages, ITEMS_PER_PAGE]
    omega
  refine ⟨hceil1, ?_, ?_, ?_⟩
  · simp only [totalPages, ITEMS_PER_PAGE]
    omega
  · exact pagesJoin (totalPages l.length) l hceil1
  · intro p hp
    unfold paginatedTransactions
    have hdrop : l.length ≤ (p - 1) * ITEMS_PER_PAGE := by
      simp only [totalPages, ITEMS_PER_PAGE] at hp ⊢
      omega
    rw [List.drop_eq_nil_of_le hdrop]
    rfl

theorem listContainsSub_nil (l : List Char) : listContainsSub [] l = true := by
  cases l <;> simp [listContainsSub, List.isPrefixOf]

theorem strIncludes_empty_pat (s : String) : strIncludes s "" = true :=
  listContainsSub_nil s.data

theorem matchesSearch_of_amount (s : String) (t : Transaction)
    (h : strIncludes (toString t.amount) s = true) : matchesSearch s t = true := by
  unfold matchesSearch
  rw [h]
  simp

theorem processed_singleton (t : Transaction) (order : SortOrder) :
    processedTransactions [t] "" .ALL order = [t] := by
  unfold processedTransactions
  have hm : matchesSearch "" t = true :=
    matchesSearch_of_amount "" t (strIncludes_empty_pat _)
  rw [List.filter_cons]
  simp only [hm, matchesType, Bool.and_true, if_pos rfl, List.filter_nil]
  exact List.mergeSort_singleton _

/-- Witness for C3's beyond-range conjunct at a concrete one-element list. -/
theorem claim_C3_witness :
    totalPages (processedTransactions
        [{ id := "1", date := "2024-06-15", amount := 100, type := .INCOME,
           category := "Penjualan", description := "a" }] "" .ALL .NEWEST).length < 2 ∧
    paginatedTransactions (processedTransactions
        [{ id := "1", date := "2024-06-15", amount := 100, type := .INCOME,
           category := "Penjualan", description := "a" }] "" .ALL .NEWEST) 2 = [] := by
  have hp : processedTransactions
      [{ id := "1", date := "2024-06-15", amount := 100, type := .INCOME,
         category := "Penjualan", description := "a" }] "" .ALL .NEWEST
      = [{ id := "1", date := "2024-06-15", amount := 100, type := .INCOME,
           category := "Penjualan", description := "a" }] := processed_singleton _ _
  constructor
  · rw [hp]
    decide
  · exact (claim_C3_pagination
      [{ id := "1", date := "2024-06-15", amount := 100, type := .INCOME,
         category := "Penjualan", description := "a" }] "" .ALL .NEWEST).2.2.2 2
      (by rw [hp]; decide)

/-- C3 as frozen is false: with a single processed transaction (one page),
requesting page 2 returns the empty list, not the last valid page. -/
theorem claim_C3_counterexample :
    paginatedTransactions (processedTransactions
        [{ id := "1", date := "2024-06-15", amount := 100, type := .INCOME,
           category := "Penjualan", description := "a" }] "" .ALL .NEWEST) 2
      ≠ paginatedTransactions (processedTransactions
        [{ id := "1", date := "2024-06-15", amount := 100, type := .INCOME,
           category := "Penjualan", description := "a" }] "" .ALL .NEWEST)
        (totalPages (processedTransactions
          [{ id := "1", date := "2024-06-15", amount := 100, type := .INCOME,
             category := "Penjualan", description := "a" }] "" .ALL .NEWEST).length) := by
  have hp : processedTransactions
      [{ id := "1", date := "2024-06-15", amount := 100, type := .INCOME,
         category := "Penjualan", description := "a" }] "" .ALL .NEWEST
      = [{ id := "1", date := "2024-06-15", amount := 100, type := .INCOME,
           category := "Penjualan", description := "a" }] := processed_singleton _ _
  rw [hp]
  decide

/-! ### C6: TODAY period -/

/-- C6 (amended form, proved). For the TODAY period with reference date
`now`, a transaction is in the filtered subset iff its date parses and its
day lies **on or after** `now`: the source compares only against the start
of the day (`tDate >= startOfDay`) and has no upper bound, so later days —
including future dates — are also included. -/
theorem claim_C6_today_membership (now : CivilDate) (ts : List Transaction)
    (t : Transaction) :
    t ∈ filteredTransactions .TODAY now ts ↔
      t ∈ ts ∧ ∃ d, parseDate t.date = some d ∧ daysFromCivil now ≤ daysFromCivil d := by
  unfold filteredTransactions
  rw [List.mem_filter]
  unfold dashboardMatches
  cases hparse : parseDate t.date with
  | none => simp [hparse]
  | some d => simp [hparse]

/-- C6 as frozen is false: with reference date 2024-06-15, the transaction
dated 2024-06-16 — a different calendar day — is still included by the
TODAY filter. -/
theorem claim_C6_counterexample :
    filteredTransactions .TODAY ⟨2024, 5, 15⟩
        [{ id := "1", date := "2024-06-16", amount := 100, type := .INCOME,
           category := "Penjualan", description := "a" }]
      = [{ id := "1", date := "2024-06-16", amount := 100, type := .INCOME,
           category := "Penjualan", description := "a" }] ∧
    parseDate "2024-06-16" = some ⟨2024, 5, 16⟩ ∧
    (⟨2024, 5, 16⟩ : CivilDate) ≠ ⟨2024, 5, 15⟩ := by
  decide

/-! ### C7: LAST_MONTH across a year boundary -/

/-- C7 (confirmed). When the reference date lies in January (month index 0),
the LAST_MONTH filter selects exactly the transactions of December
(month index 11) of the previous year — the month index is normalised, it
never stays at -1. -/
theorem claim_C7_last_month_january (now : CivilDate) (ts : List Transaction)
    (t : Transaction) (h : now.month = 0) :
    t ∈ filteredTransactions .LAST_MONTH now ts ↔
      t ∈ ts ∧ ∃ d, parseDate t.date = some d ∧ d.month = 11 ∧ d.year = now.year - 1 := by
  unfold filteredTransactions
  rw [List.mem_filter]
  unfold dashboardMatches jsYearMonth
  cases hparse : parseDate t.date with
  | none => simp [hparse]
  | some d =>
    rw [h]
    norm_num [hparse]
    intro _ _
    omega

/-- Witness for C7 with reference date 2024-01-10 and a December-2023
transaction. -/
theorem claim_C7_witness :
    (⟨2024, 0, 10⟩ : CivilDate).month = 0 ∧
    ({ id := "1", date := "2023-12-15", amount := 100, type := .INCOME,
       category := "Penjualan", description := "a" } ∈
        filteredTransactions .LAST_MONTH ⟨2024, 0, 10⟩
          [{ id := "1", date := "2023-12-15", amount := 100, type := .INCOME,
             category := "Penjualan", description := "a" }] ↔
      ({ id := "1", date := "2023-12-15", amount := 100, type := .INCOME,
         category := "Penjualan", description := "a" } : Transaction) ∈
          [{ id := "1", date := "2023-12-15", amount := 100, type := .INCOME,
             category := "Penjualan", description := "a" }] ∧
      ∃ d, parseDate "2023-12-15" = some d ∧ d.month = 11 ∧
        d.year = (⟨2024, 0, 10⟩ : CivilDate).year - 1) :=
  ⟨rfl, claim_C7_last_month_january ⟨2024, 0, 10⟩ _ _ rfl⟩

/-! ### C9: purity of the core transforms -/

/-- C9 (amended form, proved). The filter pipeline and the transaction-list
sort operate on fresh arrays and leave the `transactions` prop and the
period-filtered subset untouched, but `topExpenses` sorts the
`filteredExpenseData` array **in place**: after the call that array holds
the same elements reordered (a permutation), the returned top-5 list being
the first five elements of the reordered array. -/
theorem claim_C9_mutation (s : ReportsArrays) :
    (reportsTopExpensesStep s).2.transactions = s.transactions ∧
    (reportsTopExpensesStep s).2.filteredData = s.filteredData ∧
    (reportsTopExpensesStep s).2.filteredExpenseData.Perm s.filteredExpenseData ∧
    (reportsTopExpensesStep s).1 = (reportsTopExpensesStep s).2.filteredExpenseData.take 5 := by
  refine ⟨rfl, rfl, ?_, rfl⟩
  exact List.mergeSort_perm s.filteredExpenseData (fun a b => b.amount ≤ a.amount)

/-- C9 as frozen is false: with a filtered expense subset holding amounts
`[50, 90]`, the `topExpenses` computation leaves that intermediate subset
changed (reordered) after the call. -/
theorem claim_C9_counterexample :
    (reportsTopExpensesStep
      { transactions :=
          [{ id := "1", date := "2024-06-15", amount := 50, type := .EXPENSE,
             category := "Makanan", description := "a" },
           { id := "2", date := "2024-06-15", amount := 90, type := .EXPENSE,
             category := "Transportasi", description := "b" }],
        filteredData :=
          [{ id := "1", date := "2024-06-15", amount := 50, type := .EXPENSE,
             category := "Makanan", description := "a" },
           { id := "2", date := "2024-06-15", amount := 90, type := .EXPENSE,
             category := "Transportasi", description := "b" }],
        filteredExpenseData :=
          [{ id := "1", date := "2024-06-15", amount := 50, type := .EXPENSE,
             category := "Makanan", description := "a" },
           { id := "2", date := "2024-06-15", amount := 90, type := .EXPENSE,
             category := "Transportasi", description := "b" }] }).2.filteredExpenseData
      ≠ [{ id := "1", date := "2024-06-15", amount := 50, type := .EXPENSE,
           category := "Makanan", description := "a" },
         { id := "2", date := "2024-06-15", amount := 90, type := .EXPENSE,
           category := "Transportasi", description := "b" }] := by
  intro heq
  have hsorted := @List.sorted_mergeSort Transaction
    (fun a b => decide (b.amount ≤ a.amount))
    (by
      intro a b c h1 h2
      simp only [decide_eq_true_eq] at h1 h2 ⊢
      omega)
    (by
      intro a b
      simp only [Bool.or_eq_true, decide_eq_true_eq]
      omega)
    [{ id := "1", date := "2024-06-15", amount := 50, type := .EXPENSE,
       category := "Makanan", description := "a" },
     { id := "2", date := "2024-06-15", amount := 90, type := .EXPENSE,
       category := "Transportasi", description := "b" }]
  have hstep : (reportsTopExpensesStep
      { transactions :=
          [{ id := "1", date := "2024-06-15", amount := 50, type := .EXPENSE,
             category := "Makanan", description := "a" },
           { id := "2", date := "2024-06-15", amount := 90, type := .EXPENSE,
             category := "Transportasi", description := "b" }],
        filteredData :=
          [{ id := "1", date := "2024-06-15", amount := 50, type := .EXPENSE,
             category := "Makanan", description := "a" },
           { id := "2", date := "2024-06-15", amount := 90, type := .EXPENSE,
             category := "Transportasi", description := "b" }],
        filteredExpenseData :=
          [{ id := "1", date := "2024-06-15", amount := 50, type := .EXPENSE,
             category := "Makanan", description := "a" },
           { id := "2", date := "2024-06-15", amount := 90, type := .EXPENSE,
             category := "Transportasi", description := "b" }] }).2.filteredExpenseData
      = List.mergeSort
          [{ id := "1", date := "2024-06-15", amount := 50, type := .EXPENSE,
             category := "Makanan", description := "a" },
           { id := "2", date := "2024-06-15", amount := 90, type := .EXPENSE,
             category := "Transportasi", description := "b" }]
          (fun a b => decide (b.amount ≤ a.amount)) := rfl
  rw [hstep] at heq
  rw [heq] at hsorted
  rw [List.pairwise_cons] at hsorted
  have h90 := hsorted.1 _ (List.mem_cons_self _ _)
  simp at h90

/-! ### C10: every stored transaction references an account -/

theorem loadAccounts_ne_nil (saved : Option (List Account)) : loadAccounts saved ≠ [] := by
  unfold loadAccounts
  cases saved with
  | none => simp
  | some l =>
    dsimp only
    split
    · simp
    · rename_i h
      intro hl
      rw [hl] at h
      simp at h

/-- C10 (confirmed). Transactions loaded from storage are migrated so that
each carries a defined `accountId`; the demo seed references the first
loaded account (the load step guarantees at least one account exists); and
`addTransaction`, when at least one account exists, fills a missing
`accountId` with the first account's id, so prepending preserves the
invariant that every stored transaction references some account. -/
theorem claim_C10_account_id (savedAcc : Option (List Account))
    (savedTx : Option (List Transaction)) (today : String) :
    (∀ t ∈ loadTransactions (loadAccounts savedAcc) savedTx today,
      t.accountId.isSome = true) ∧
    (∀ (accounts : List Account) (tIn : Transaction) (newId : String)
        (prev : List Transaction), accounts ≠ [] →
      (∀ t ∈ prev, t.accountId.isSome = true) →
      ∀ t ∈ addTransaction accounts tIn newId prev, t.accountId.isSome = true) := by
  constructor
  · intro t ht
    unfold loadTransactions at ht
    cases savedTx with
    | some l =>
      simp only [migrateTransactions, List.mem_map] at ht
      obtain ⟨t0, _, rfl⟩ := ht
      by_cases hf : jsFalsyStr t0.accountId = true
      · simp [hf]
      · simp only [hf]
        cases hacc : t0.accountId with
        | none => simp [jsFalsyStr, hacc] at hf
        | some s => simp [hacc]
    | none =>
      simp only [List.mem_singleton] at ht
      subst ht
      cases hhead : (loadAccounts savedAcc).head? with
      | none =>
        exact absurd (List.head?_eq_none_iff.mp hhead) (loadAccounts_ne_nil savedAcc)
      | some a => simp [hhead]
  · intro accounts tIn newId prev hne hprev t ht
    cases accounts with
    | nil => exact absurd rfl hne
    | cons a rest =>
      unfold addTransaction at ht
      rcases List.mem_cons.mp ht with h | h
      · subst h
        by_cases hf : jsFalsyStr tIn.accountId = true
        · simp [hf]
        · simp only [hf]
          cases hacc : tIn.accountId with
          | none => simp [jsFalsyStr, hacc] at hf
          | some s => simp [hacc]
      · exact hprev t h

/-- Witness for C10: loading with empty storage yields the demo transaction
referencing account "1", and a concrete add with a missing `accountId`
produces only transactions referencing an account. -/
theorem claim_C10_witness :
    ({ id := "1", date := "2024-06-15", amount := 5000000, type := .INCOME,
       category := "Penjualan", description := "Penjualan Mingguan",
       merchant := some "Toko", accountId := some "1" } : Transaction).accountId.isSome
        = true ∧
    ∀ t ∈ addTransaction
        [{ id := "1", name := "Kas Tunai", type := .CASH, initialBalance := 0 }]
        { id := "", date := "2024-06-15", amount := 10, type := .EXPENSE,
          category := "Makanan", description := "x" } "99" [],
      t.accountId.isSome = true :=
  ⟨(claim_C10_account_id none none "2024-06-15").1 _ (by decide),
   (claim_C10_account_id none none "2024-06-15").2
     [{ id := "1", name := "Kas Tunai", type := .CASH, initialBalance := 0 }]
     { id := "", date := "2024-06-15", amount := 10, type := .EXPENSE,
       category := "Makanan", description := "x" } "99" []
     (by decide) (by simp)⟩

/-! ### C8: yearly chart lemmas -/

theorem monthShort_inj : ∀ i : Nat, i < 12 → ∀ j : Nat, j < 12 →
    monthShort (i : Int) = monthShort (j : Int) → i = j := by decide

theorem parseDate_month_range (s : String) (d : CivilDate)
    (h : parseDate s = some d) : 0 ≤ d.month ∧ d.month < 12 := by
  unfold parseDate at h
  split at h
  · split at h
    · split at h
      · rename_i hcond
        injection h with h'
        subst h'
        simp only []
        omega
      · exact absurd h (by simp)
    · exact absurd h (by simp)
  · exact absurd h (by simp)

theorem daysFromCivil_month_mono (y : Int) : ∀ i j : Nat, i < j → j < 12 →
    daysFromCivil ⟨y, (i : Int), 1⟩ < daysFromCivil ⟨y, (j : Int), 1⟩ := by
  intro i j hij hj
  interval_cases j <;> interval_cases i <;>
    simp only [daysFromCivil] <;> norm_num <;> omega

theorem monthShort_inj_int (m n : Int) (hm0 : 0 ≤ m) (hm : m < 12) (hn0 : 0 ≤ n)
    (hn : n < 12) (h : monthShort m = monthShort n) : m = n := by
  have hm' : m = ((m.toNat : Nat) : Int) := (Int.toNat_of_nonneg hm0).symm
  have hn' : n = ((n.toNat : Nat) : Int) := (Int.toNat_of_nonneg hn0).symm
  rw [hm', hn'] at h
  have := monthShort_inj m.toNat (by omega) n.toNat (by omega) h
  omega

theorem chartPrefill_eq (Y : Int) : chartPrefill Y = mkAcc Y (fun _ => 0) (fun _ => 0) := rfl

theorem sumIncome_cons (t : Transaction) (l : List Transaction) :
    sumIncome (t :: l) = (if t.type = .INCOME then t.amount else 0) + sumIncome l := by
  unfold sumIncome
  rw [List.filter_cons]
  by_cases h : t.type = TransactionType.INCOME <;> simp [h]

theorem sumExpense_cons (t : Transaction) (l : List Transaction) :
    sumExpense (t :: l) = (if t.type = .EXPENSE then t.amount else 0) + sumExpense l := by
  unfold sumExpense
  rw [List.filter_cons]
  by_cases h : t.type = TransactionType.EXPENSE <;> simp [h]

theorem mkAcc_congr (Y : Int) (I E I2 E2 : Nat → Int)
    (hI : ∀ i, i < 12 → I i = I2 i) (hE : ∀ i, i < 12 → E i = E2 i) :
    mkAcc Y I E = mkAcc Y I2 E2 := by
  unfold mkAcc
  apply List.map_congr_left
  intro i hi
  rw [List.mem_range] at hi
  rw [hI i hi, hE i hi]

theorem mkAcc_any_name (Y : Int) (I E : Nat → Int) (m : Int) (h0 : 0 ≤ m)
    (h12 : m < 12) :
    (mkAcc Y I E).any (fun e => e.name = monthShort m) = true := by
  rw [List.any_eq_true]
  have hm : ((m.toNat : Nat) : Int) = m := Int.toNat_of_nonneg h0
  refine ⟨{ name := monthShort ((m.toNat : Nat) : Int), income := I m.toNat,
            expense := E m.toNat,
            sortDate := daysFromCivil ⟨Y, ((m.toNat : Nat) : Int), 1⟩ }, ?_, ?_⟩
  · unfold mkAcc
    exact List.mem_map.mpr ⟨m.toNat, List.mem_range.mpr (by omega), rfl⟩
  · simp [hm]

theorem chartStep_mkAcc (Y : Int) (I E : Nat → Int) (t : Transaction) (d : CivilDate)
    (hd : parseDate t.date = some d) :
    chartStepYearly Y (mkAcc Y I E) t =
      mkAcc Y
        (fun i => if (i : Int) = d.month ∧ t.type = .INCOME then I i + t.amount else I i)
        (fun i => if (i : Int) = d.month ∧ ¬t.type = .INCOME then E i + t.amount else E i) := by
  obtain ⟨h0, h12⟩ := parseDate_month_range t.date d hd
  unfold chartStepYearly
  rw [hd]
  simp only [mkAcc_any_name Y I E d.month h0 h12, if_pos]
  conv_lhs => unfold mkAcc
  conv_rhs => unfold mkAcc
  rw [List.map_map]
  apply List.map_congr_left
  intro i hi
  rw [List.mem_range] at hi
  simp only [Function.comp_apply]
  by_cases him : (i : Int) = d.month
  · rw [him]
    simp only [if_pos rfl]
    cases htype : t.type with
    | INCOME => simp [him, htype]
    | EXPENSE => simp [him, htype]
  · have hname : ¬(monthShort (i : Int) = monthShort d.month) := fun hcontra =>
      him (monthShort_inj_int (i : Int) d.month (by omega) (by omega) h0 h12 hcontra)
    simp only [if_neg hname]
    have hI : ((i : Int) = d.month ∧ t.type = TransactionType.INCOME) = False := by
      simp [him]
    have hE : ((i : Int) = d.month ∧ ¬t.type = TransactionType.INCOME) = False := by
      simp [him]
    simp [hI, hE]

theorem chartFold_mkAcc (Y : Int) : ∀ (l : List Transaction) (I E : Nat → Int),
    l.foldl (chartStepYearly Y) (mkAcc Y I E) =
      mkAcc Y
        (fun i => I i + sumIncome (l.filter (fun t => monthOf t = some (i : Int))))
        (fun i => E i + sumExpense (l.filter (fun t => monthOf t = some (i : Int)))) := by
  intro l
  induction l with
  | nil =>
    intro I E
    simp only [List.foldl_nil, List.filter_nil]
    exact (mkAcc_congr Y _ _ I E (by intro i _; simp [sumIncome])
      (by intro i _; simp [sumExpense])).symm
  | cons t rest ih =>
    intro I E
    rw [List.foldl_cons]
    cases hd : parseDate t.date with
    | none =>
      have hstep : chartStepYearly Y (mkAcc Y I E) t = mkAcc Y I E := by
        unfold chartStepYearly
        rw [hd]
      rw [hstep, ih]
      apply mkAcc_congr <;>
        · intro i hi
          have hmt : ¬(monthOf t = some ((i : Nat) : Int)) := by simp [monthOf, hd]
          simp [List.filter_cons, hmt]
    | some d =>
      rw [chartStep_mkAcc Y I E t d hd, ih]
      apply mkAcc_congr
      · intro i hi
        by_cases him : (i : Int) = d.month
        · have hmt : monthOf t = some ((i : Nat) : Int) := by simp [monthOf, hd, him]
          cases htype : t.type with
          | INCOME =>
            simp [him, htype, List.filter_cons, hmt, sumIncome_cons]
            ring
          | EXPENSE =>
            simp [him, htype, List.filter_cons, hmt, sumIncome_cons]
        · have hmt : ¬(monthOf t = some ((i : Nat) : Int)) := by
            simp [monthOf, hd]
            omega
          simp [him, List.filter_cons, hmt]
      · intro i hi
        by_cases him : (i : Int) = d.month
        · have hmt : monthOf t = some ((i : Nat) : Int) := by simp [monthOf, hd, him]
          cases htype : t.type with
          | INCOME =>
            simp [him, htype, List.filter_cons, hmt, sumExpense_cons]
          | EXPENSE =>
            simp [him, htype, List.filter_cons, hmt, sumExpense_cons]
            ring
        · have hmt : ¬(monthOf t = some ((i : Nat) : Int)) := by
            simp [monthOf, hd]
            omega
          simp [him, List.filter_cons, hmt]

theorem mkAcc_sorted (Y : Int) (I E : Nat → Int) :
    List.Pairwise (fun a b : ChartEntry => (decide (a.sortDate ≤ b.sortDate)) = true)
      (mkAcc Y I E) := by
  unfold mkAcc
  rw [List.pairwise_map]
  rw [List.pairwise_iff_getElem]
  intro i j hi hj hij
  simp only [List.length_range] at hi hj
  simp only [List.getElem_range, decide_eq_true_eq]
  exact le_of_lt (daysFromCivil_month_mono Y i j hij hj)

theorem chartDataYearly_eq (Y : Int) (l : List Transaction) :
    chartDataYearly Y l =
      mkAcc Y
        (fun i => sumIncome (l.filter (fun t => monthOf t = some (i : Int))))
        (fun i => sumExpense (l.filter (fun t => monthOf t = some (i : Int)))) := by
  unfold chartDataYearly
  rw [chartPrefill_eq, chartFold_mkAcc]
  rw [List.mergeSort_of_sorted (mkAcc_sorted Y _ _)]
  exact mkAcc_congr Y _ _ _ _ (by intro i _; simp) (by intro i _; simp)

theorem mkAcc_getD (Y : Int) (I E : Nat → Int) (i : Nat) (hi : i < 12) :
    (mkAcc Y I E).getD i ⟨"", 0, 0, 0⟩ =
      ⟨monthShort (i : Int), I i, E i, daysFromCivil ⟨Y, (i : Int), 1⟩⟩ := by
  unfold mkAcc
  rw [List.getD_eq_getElem?_getD, List.getElem?_map, List.getElem?_range hi]
  rfl

/-! ### C8: the YEARLY time series -/

/-- C8 (confirmed). For the YEARLY period with reference year
`currentDate.year`, the chart series has exactly 12 buckets; the `i`-th
bucket is the `i`-th calendar month of the reference year (its key is the
month's short name, its sort key the first day of that month), its income
and expense values are the sums over the filtered transactions of that
month — in particular both are 0 for a month with no transactions — and the
sort keys are strictly increasing, so the buckets are ordered
chronologically. -/
theorem claim_C8_yearly_chart (currentDate : CivilDate) (r : CustomRange)
    (ts : List Transaction) :
    (chartDataYearly currentDate.year (filteredData .YEARLY currentDate r ts)).length
        = 12 ∧
    (∀ i : Nat, i < 12 →
      ((chartDataYearly currentDate.year (filteredData .YEARLY currentDate r ts)).getD i
          ⟨"", 0, 0, 0⟩).name = monthShort (i : Int) ∧
      ((chartDataYearly currentDate.year (filteredData .YEARLY currentDate r ts)).getD i
          ⟨"", 0, 0, 0⟩).sortDate = daysFromCivil ⟨currentDate.year, (i : Int), 1⟩ ∧
      ((chartDataYearly currentDate.year (filteredData .YEARLY currentDate r ts)).getD i
          ⟨"", 0, 0, 0⟩).income
        = sumIncome ((filteredData .YEARLY currentDate r ts).filter
            (fun t => monthOf t = some (i : Int))) ∧
      ((chartDataYearly currentDate.year (filteredData .YEARLY currentDate r ts)).getD i
          ⟨"", 0, 0, 0⟩).expense
        = sumExpense ((filteredData .YEARLY currentDate r ts).filter
            (fun t => monthOf t = some (i : Int)))) ∧
    (∀ i j : Nat, i < j → j < 12 →
      ((chartDataYearly currentDate.year (filteredData .YEARLY currentDate r ts)).getD i
          ⟨"", 0, 0, 0⟩).sortDate
        < ((chartDataYearly currentDate.year (filteredData .YEARLY currentDate r ts)).getD j
          ⟨"", 0, 0, 0⟩).sortDate) := by
  rw [chartDataYearly_eq]
  refine ⟨?_, ?_, ?_⟩
  · unfold mkAcc
    simp
  · intro i hi
    rw [mkAcc_getD _ _ _ i hi]
    exact ⟨rfl, rfl, rfl, rfl⟩
  · intro i j hij hj
    rw [mkAcc_getD _ _ _ i (by omega), mkAcc_getD _ _ _ j hj]
    exact daysFromCivil_month_mono currentDate.year i j hij hj

/-- Witness for C8 at a concrete year and transaction list: instantiates the
bucket description for June (index 5) and the order conjunct for
January versus December. -/
theorem claim_C8_witness :
    ((chartDataYearly (2024 : Int) (filteredData .YEARLY ⟨2024, 5, 15⟩ ⟨"", ""⟩
        [{ id := "1", date := "2024-06-15", amount := 100, type := .INCOME,
           category := "Penjualan", description := "a" }])).getD 5
        ⟨"", 0, 0, 0⟩).income
      = sumIncome ((filteredData .YEARLY ⟨2024, 5, 15⟩ ⟨"", ""⟩
        [{ id := "1", date := "2024-06-15", amount := 100, type := .INCOME,
           category := "Penjualan", description := "a" }]).filter
          (fun t => monthOf t = some ((5 : Nat) : Int))) ∧
    ((chartDataYearly (2024 : Int) (filteredData .YEARLY ⟨2024, 5, 15⟩ ⟨"", ""⟩
        [{ id := "1", date := "2024-06-15", amount := 100, type := .INCOME,
           category := "Penjualan", description := "a" }])).getD 0
        ⟨"", 0, 0, 0⟩).sortDate
      < ((chartDataYearly (2024 : Int) (filteredData .YEARLY ⟨2024, 5, 15⟩ ⟨"", ""⟩
        [{ id := "1", date := "2024-06-15", amount := 100, type := .INCOME,
           category := "Penjualan", description := "a" }])).getD 11
        ⟨"", 0, 0, 0⟩).sortDate :=
  ⟨((claim_C8_yearly_chart ⟨2024, 5, 15⟩ ⟨"", ""⟩
      [{ id := "1", date := "2024-06-15", amount := 100, type := .INCOME,
         category := "Penjualan", description := "a" }]).2.1 5 (by decide)).2.2.1,
   (claim_C8_yearly_chart ⟨2024, 5, 15⟩ ⟨"", ""⟩
      [{ id := "1", date := "2024-06-15", amount := 100, type := .INCOME,
         category := "Penjualan", description := "a" }]).2.2 0 11 (by decide) (by decide)⟩

end LetsFinance
